import Mathlib

/-
Shallow embedding of src/carControlSystem.ino (FreeRTOS car control system).

The program creates five queues (motorQueue, ventilationQueue, fuelQueue,
speedQueue, rpmQueue), one queue set over all of them, one mutex
(dashboardSemaphore), a global CarStatus record, three producer tasks
(motorControlTask, ventilationControlTask, fuelControlTask) and one consumer
task (dashboardTask).

Embedding choices, each traceable to the source:
  - A queue is a bounded FIFO list (capacity fixed at creation, lines 61-65).
  - The queue set is modelled by its internal readiness queue: every
    successful send to a member queue appends that member identity
    (FreeRTOS posts the member handle to the set queue); xQueueSelectFromSet
    pops the head; a direct xQueueReceive on a member queue does not touch
    the readiness queue, so stale entries can remain, which is why
    dashboardTask re-checks the receive result.
  - Payloads: the program sends char pointers to string literals and the
    addresses of the numeric fields; we model the transported values as a
    tagged Msg (string, numeric sample, or undef for an indeterminate or
    uninitialized pointer).
  - speed is uint8_t and rpm uint32_t; the only values ever written are 0,
    90 and 2500, far below 2^8 and 2^32, so no wraparound can occur and Nat
    is an exact model. fuelLevel is a float compared against exact decimal
    constants; Rat models those comparisons exactly.
  - One iteration of each task body is a function from state to state plus a
    trace of observable events (sends, receives, waits on the queue set,
    vTaskDelay calls, Serial prints, semaphore take and give, and reads and
    writes of carStatus fields). Blocking primitives that can never return
    in a single-task snapshot (a portMAX_DELAY send on a full queue) make
    the iteration stop and report completed = false.
-/

namespace CarCtl

/-- Identities of the five queues created in setup, lines 61 to 65. -/
inductive ChanId
| motor
| ventilation
| fuel
| speed
| rpm
deriving DecidableEq, Repr

/-- A transported payload: a status string, a numeric sample, or an
indeterminate (uninitialized) pointer value. -/
inductive Msg
| str (s : String)
| num (n : Nat)
| undef
deriving DecidableEq, Repr

/-- A bounded FIFO queue, as created by xQueueCreate: fixed capacity,
items in arrival order (head is the oldest). -/
structure Channel where
  capacity : Nat
  items : List Msg
deriving DecidableEq, Repr

/-- CarStatus struct, lines 27 to 34. -/
structure CarStatus where
  speed : Nat
  rpm : Nat
  ventilationStatus : Bool
  fuelLevel : Rat
deriving DecidableEq, Repr

/-- Global initialization, line 37: carStatus = (0, 0, false, 0.0f). -/
def initCarStatus : CarStatus :=
  { speed := 0, rpm := 0, ventilationStatus := false, fuelLevel := 0 }

/-- The five queues. -/
structure Channels where
  motorQueue : Channel
  ventilationQueue : Channel
  fuelQueue : Channel
  speedQueue : Channel
  rpmQueue : Channel
deriving DecidableEq, Repr

/-- Whole-system state visible to the tasks: the queues, the readiness
queue of the queue set, and the shared carStatus record. -/
structure SysState where
  chans : Channels
  readySet : List ChanId
  carStatus : CarStatus
deriving DecidableEq, Repr

def getChan (s : SysState) : ChanId → Channel
| ChanId.motor => s.chans.motorQueue
| ChanId.ventilation => s.chans.ventilationQueue
| ChanId.fuel => s.chans.fuelQueue
| ChanId.speed => s.chans.speedQueue
| ChanId.rpm => s.chans.rpmQueue

def setChan (s : SysState) (c : ChanId) (ch : Channel) : SysState :=
match c with
| ChanId.motor => { s with chans := { s.chans with motorQueue := ch } }
| ChanId.ventilation => { s with chans := { s.chans with ventilationQueue := ch } }
| ChanId.fuel => { s with chans := { s.chans with fuelQueue := ch } }
| ChanId.speed => { s with chans := { s.chans with speedQueue := ch } }
| ChanId.rpm => { s with chans := { s.chans with rpmQueue := ch } }

/-- Fields of the shared CarStatus record, for access events. -/
inductive CsField
| speed
| rpm
| ventilationStatus
| fuelLevel
deriving DecidableEq, Repr

/-- Result of the C cast (int)msg in dashboardTask: a numeric sample cast
back to its value, a string pointer cast to its (indeterminate) address,
or an indeterminate value when msg itself was never assigned. -/
inductive CastVal
| val (n : Nat)
| addr (s : String)
| undef
deriving DecidableEq, Repr

/-- Observable events of one task body. -/
inductive Ev
| sent (c : ChanId) (m : Msg) (ok : Bool)
| recv (c : ChanId) (m : Option Msg)
| selectWait (r : Option ChanId)
| delay (ticks : Nat)
| print (s : String)
| printMsg (m : Msg)
| semTake
| semGive
| csWrite (f : CsField)
| csRead (f : CsField)
deriving DecidableEq, Repr

/-- pdMS_TO_TICKS(1000), line 40; ticks are modelled in milliseconds. -/
def xTicksToWait : Nat := 1000

/-- Modelled from the spec: the bounded-channel trySend contract of
section 4.1 (xQueueSend with zero block time; the FreeRTOS queue
implementation itself is not part of this repository). Enqueues at the
tail when below capacity, otherwise returns the channel unchanged with
result false. -/
def trySend (ch : Channel) (m : Msg) : Channel × Bool :=
  if ch.items.length < ch.capacity then
    ({ ch with items := ch.items ++ [m] }, true)
  else (ch, false)

/-- Modelled from the spec: tryReceive of section 4.1 (xQueueReceive with
zero block time): dequeues the oldest item when one is queued. -/
def tryReceive (ch : Channel) : Option Msg × Channel :=
  match ch.items with
  | [] => (none, ch)
  | m :: rest => (some m, { ch with items := rest })

/-- xQueueSend with zero block time on a queue that belongs to the queue
set: on success the member identity is appended to the readiness queue of
the set. -/
def sendTo (s : SysState) (c : ChanId) (m : Msg) : SysState × Bool :=
  let r := trySend (getChan s c) m
  if r.2 then ({ setChan s c r.1 with readySet := s.readySet ++ [c] }, true)
  else (s, false)

/-- xQueueSend with portMAX_DELAY: succeeds whenever the queue has room;
in this single-task snapshot a send on a full queue never returns (the
task blocks forever), reported as none. -/
def sendBlocking (s : SysState) (c : ChanId) (m : Msg) : Option SysState :=
  let r := sendTo s c m
  if r.2 then some r.1 else none

/-- xQueueReceive with zero block time on a member queue. Receiving
directly does not consume a readiness entry of the queue set. -/
def recvZero (s : SysState) (c : ChanId) : Option Msg × SysState :=
  let r := tryReceive (getChan s c)
  (r.1, setChan s c r.2)

/-- The self-check stub of lines 317 to 321: always true. The spec treats
the check as a pluggable collaborator, so the task bodies below take the
check outcome as a parameter and this stub is the concrete instance. -/
def performSelfCheck : Bool := true

/-- Ventilation check stub, lines 324 to 328: always true. -/
def ventilationCheck : Bool := true

/-- Fuel check stub, lines 331 to 335: always true. -/
def performFuelCheck : Bool := true

/-- Fuel level stub, lines 338 to 342: returns 50.03. -/
def fuelLevel : Rat := mkRat 5003 100

/-- sendMessageToSubsystem, lines 300 to 314: a zero-timeout send of
checkMsg to the given queue; when the send succeeded, a portMAX_DELAY
receive from the same queue (simulated subsystem response) followed by a
print of the received string. The selfCheckMsg argument is never used by
the source function. The final Bool is false when the task would block
forever in the receive (impossible right after a successful send). -/
def sendMessageToSubsystem (selfCheckMsg : String) (q : ChanId) (checkMsg : String)
    (s : SysState) : SysState × List Ev × Bool :=
  let r := sendTo s q (Msg.str checkMsg)
  if r.2 then
    let rr := recvZero r.1 q
    match rr.1 with
    | some m =>
        (rr.2, [Ev.sent q (Msg.str checkMsg) true, Ev.recv q (some m), Ev.printMsg m], true)
    | none =>
        (rr.2, [Ev.sent q (Msg.str checkMsg) true, Ev.recv q none], false)
  else (r.1, [Ev.sent q (Msg.str checkMsg) false], true)

/-- The status strings composed by motorControlTask, lines 98 to 109. -/
def motorMsgs (check : Bool) : String × String :=
  if check then ("M.G is ok, speed xx and rpm is yyyy", "Motor is OK")
  else ("x01: Error: M.||Gb.", "Motor is not OK")

/-- Lines 124 to 148 of motorControlTask: the zero-timeout sends of
carStatus.speed to speedQueue and carStatus.rpm to rpmQueue (each
preceded by the read of the field and followed by print and 1 second
delay only on success), then the zero-timeout send of statusMsg2 to
motorQueue (print and delay on success). -/
def motorTail (statusMsg2 : String) (s3 : SysState) : SysState × List Ev :=
  let r2 := sendTo s3 ChanId.speed (Msg.num s3.carStatus.speed)
  let evsA := [Ev.csRead CsField.speed,
    Ev.sent ChanId.speed (Msg.num s3.carStatus.speed) r2.2]
  let evsB :=
    if r2.2 then evsA ++ [Ev.print "Motor Speed Message Sent", Ev.delay xTicksToWait]
    else evsA
  let r3 := sendTo r2.1 ChanId.rpm (Msg.num r2.1.carStatus.rpm)
  let evsC := evsB ++
    [Ev.csRead CsField.rpm, Ev.sent ChanId.rpm (Msg.num r2.1.carStatus.rpm) r3.2]
  let evsD :=
    if r3.2 then evsC ++ [Ev.print "RPM Message Sent", Ev.delay xTicksToWait]
    else evsC
  let r4 := sendTo r3.1 ChanId.motor (Msg.str statusMsg2)
  let evsE := evsD ++ [Ev.sent ChanId.motor (Msg.str statusMsg2) r4.2]
  let evsF :=
    if r4.2 then evsE ++ [Ev.print "Motor Message 2 Sent", Ev.delay xTicksToWait]
    else evsE
  (r4.1, evsF)

/-- One iteration of the motorControlTask loop body, lines 95 to 150.
When the self-check passes the task writes carStatus.speed = 90 and
carStatus.rpm = 2500 directly (lines 102 to 103, with no semaphore
anywhere in the task). It then sends statusMsg to motorQueue with zero
timeout (line 112) and reads carStatus.speed into a local (line 113).
Only when that send passed: print and 1 second delay, the two
sendMessageToSubsystem calls, the zero-timeout sends of carStatus.speed
and carStatus.rpm to speedQueue and rpmQueue (each followed by print and
delay only on success), and the zero-timeout send of statusMsg2 to
motorQueue (print and delay on success). The final Bool is false when a
sendMessageToSubsystem call would block. -/
def motorIteration (check : Bool) (s : SysState) : SysState × List Ev × Bool :=
  let statusMsg := (motorMsgs check).1
  let statusMsg2 := (motorMsgs check).2
  let s0 :=
    if check then { s with carStatus := { s.carStatus with speed := 90, rpm := 2500 } }
    else s
  let evs0 : List Ev :=
    if check then [Ev.csWrite CsField.speed, Ev.csWrite CsField.rpm] else []
  let r1 := sendTo s0 ChanId.motor (Msg.str statusMsg)
  let evs1 := evs0 ++ [Ev.sent ChanId.motor (Msg.str statusMsg) r1.2, Ev.csRead CsField.speed]
  if r1.2 then
    let evs2 := evs1 ++ [Ev.print "Motor Message Sent", Ev.delay xTicksToWait]
    let rv := sendMessageToSubsystem "Checking motor/vent/fuel" ChanId.ventilation
      "Checking vent." r1.1
    if rv.2.2 then
      let rf := sendMessageToSubsystem "Checking motor/vent/fuel" ChanId.fuel
        "Checking Fuel" rv.1
      if rf.2.2 then
        let tl := motorTail statusMsg2 rf.1
        (tl.1, evs2 ++ rv.2.1 ++ rf.2.1 ++ tl.2, true)
      else (rf.1, evs2 ++ rv.2.1 ++ rf.2.1, false)
    else (rv.1, evs2 ++ rv.2.1, false)
  else (r1.1, evs1, true)

/-- The status strings composed by ventilationControlTask, lines 162 to 171. -/
def ventMsgs (check : Bool) : String × String :=
  if check then ("Vent. is ok", "Y*Y*") else ("x02:Error: Vent", "N*N*")

/-- One iteration of the ventilationControlTask loop body, lines 159 to
190: a portMAX_DELAY send of statusMsg to ventilationQueue; on pdPASS a
print and 1 second delay, then a portMAX_DELAY send of statusMsg2 with
print and delay on pdPASS. The final Bool is false when a blocking send
never returns (full queue in this snapshot). -/
def ventIteration (check : Bool) (s : SysState) : SysState × List Ev × Bool :=
  let statusMsg := (ventMsgs check).1
  let statusMsg2 := (ventMsgs check).2
  match sendBlocking s ChanId.ventilation (Msg.str statusMsg) with
  | none => (s, [], false)
  | some s1 =>
      let evs1 := [Ev.sent ChanId.ventilation (Msg.str statusMsg) true,
        Ev.print "Ventilation Message Sent", Ev.delay xTicksToWait]
      match sendBlocking s1 ChanId.ventilation (Msg.str statusMsg2) with
      | none => (s1, evs1, false)
      | some s2 =>
          (s2, evs1 ++ [Ev.sent ChanId.ventilation (Msg.str statusMsg2) true,
            Ev.print "Ventilation 2 Message Sent", Ev.delay xTicksToWait], true)

/-- The branch structure of fuelControlTask, lines 202 to 215: statusMsg
is assigned in all three branches, statusMsg2 only in the first two; in
the else branch (check false, or level exactly 10) statusMsg2 keeps
whatever value it had from a previous iteration (none models the
uninitialized first iteration). -/
def fuelCompose (check : Bool) (level : Rat) (prev : Option String) :
    String × Option String :=
  if check && decide (level < 10) then ("0x3: low fuel", some "U$U$")
  else if check && decide (level > 10) then ("0x4 good fuel", some "h$h$")
  else ("Fuel.is.xx.yy%", prev)

/-- The char pointer statusMsg2 as it is sent: a string when assigned,
the indeterminate uninitialized value otherwise. -/
def optStrToMsg : Option String → Msg
| some s => Msg.str s
| none => Msg.undef

/-- One iteration of the fuelControlTask loop body, lines 199 to 234: a
portMAX_DELAY send of statusMsg to fuelQueue (print and delay on pdPASS),
then unconditionally a portMAX_DELAY send of statusMsg2 to fuelQueue
(print and delay on pdPASS). Returns the new statusMsg2 local (it
persists across iterations) and reports completed = false when a blocking
send never returns. -/
def fuelIteration (check : Bool) (level : Rat) (prev : Option String) (s : SysState) :
    SysState × Option String × List Ev × Bool :=
  let p := fuelCompose check level prev
  match sendBlocking s ChanId.fuel (Msg.str p.1) with
  | none => (s, p.2, [], false)
  | some s1 =>
      let evs1 := [Ev.sent ChanId.fuel (Msg.str p.1) true,
        Ev.print "Fuel Message Sent", Ev.delay xTicksToWait]
      match sendBlocking s1 ChanId.fuel (optStrToMsg p.2) with
      | none => (s1, p.2, evs1, false)
      | some s2 =>
          (s2, p.2, evs1 ++ [Ev.sent ChanId.fuel (optStrToMsg p.2) true,
            Ev.print "Fuel Message 2 Sent", Ev.delay xTicksToWait], true)

/-- The locals of dashboardTask that persist across outer iterations,
line 241: speedValue and rpmValue (none models never assigned). The
unused local dashboardMsg is omitted. -/
structure DashLocals where
  speedValue : Option CastVal
  rpmValue : Option CastVal
deriving DecidableEq, Repr

def initLocals : DashLocals := { speedValue := none, rpmValue := none }

/-- The C cast (int)msg applied to the current value of the msg local. -/
def msgCast : Option Msg → CastVal
| some (Msg.num n) => CastVal.val n
| some (Msg.str s) => CastVal.addr s
| some Msg.undef => CastVal.undef
| none => CastVal.undef

/-- The body of the dashboard inner loop for one select result, lines 261
to 287: a zero-timeout receive from the active queue; on pdPASS a 100 ms
delay and the prints of the received message; then, independent of the
receive result, if the active queue is speedQueue the local speedValue is
set to (int)msg (the msg local keeps its stale value when the receive
failed), and likewise for rpmQueue. The shared carStatus record is never
touched. -/
def dashHandle (c : ChanId) (s : SysState) (msg : Option Msg) (loc : DashLocals) :
    SysState × Option Msg × DashLocals × List Ev :=
  let r := recvZero s c
  let q :=
    match r.1 with
    | some m => (some m,
        [Ev.recv c (some m), Ev.delay 100, Ev.print "Received: ", Ev.printMsg m])
    | none => (msg, [Ev.recv c none])
  let u1 :=
    if c = ChanId.speed then
      ({ loc with speedValue := some (msgCast q.1) }, [Ev.print "Speed: "])
    else (loc, ([] : List Ev))
  let u2 :=
    if c = ChanId.rpm then
      ({ u1.1 with rpmValue := some (msgCast q.1) }, [Ev.print "RPM: "])
    else (u1.1, ([] : List Ev))
  (r.2, q.1, u2.1, q.2 ++ u1.2 ++ u2.2)

/-- The dashboard inner drain loop, lines 253 to 292: repeated
xQueueSelectFromSet with a 100 ms timeout. The select pops the head of
the readiness queue of the set; the loop breaks when the select returns
NULL (readiness queue empty in this snapshot). -/
def drainGo : List ChanId → SysState → Option Msg → DashLocals →
    SysState × Option Msg × DashLocals × List Ev
| [], s, msg, loc => (s, msg, loc, [Ev.selectWait none])
| c :: rest, s, msg, loc =>
    let h := dashHandle c s msg loc
    let t := drainGo rest h.1 h.2.1 h.2.2.1
    (t.1, t.2.1, t.2.2.1, Ev.selectWait (some c) :: h.2.2.2 ++ t.2.2.2)

/-- One iteration of the dashboardTask outer loop, lines 244 to 296: take
dashboardSemaphore (portMAX_DELAY), run the inner drain loop with a fresh
unassigned msg local, and give the semaphore back after the loop breaks. -/
def dashboardIteration (s : SysState) (loc : DashLocals) :
    SysState × DashLocals × List Ev :=
  let d := drainGo s.readySet { s with readySet := [] } none loc
  (d.1, d.2.2.1, Ev.semTake :: d.2.2.2 ++ [Ev.semGive])

/-- Queue capacities as created in setup, lines 61 to 65: status queues
hold 5 items, the numeric sample queues 1. -/
def initChannels : Channels :=
  { motorQueue := { capacity := 5, items := [] },
    ventilationQueue := { capacity := 5, items := [] },
    fuelQueue := { capacity := 5, items := [] },
    speedQueue := { capacity := 1, items := [] },
    rpmQueue := { capacity := 1, items := [] } }

/-- The system state right after setup. -/
def initState : SysState :=
  { chans := initChannels, readySet := [], carStatus := initCarStatus }

/-- Payloads of the successfully received items in a trace. -/
def receivedMsgs : List Ev → List Msg
| [] => []
| Ev.recv _ (some m) :: r => m :: receivedMsgs r
| _ :: r => receivedMsgs r

/-- Payloads forwarded to the rendering collaborator (Serial prints of a
received message) in a trace. -/
def renderedMsgs : List Ev → List Msg
| [] => []
| Ev.printMsg m :: r => m :: renderedMsgs r
| _ :: r => renderedMsgs r

/-- Number of informational (string, non numeric) messages rendered. -/
def informationalRenders : List Ev → Nat
| [] => 0
| Ev.printMsg (Msg.str _) :: r => informationalRenders r + 1
| _ :: r => informationalRenders r

/-- True when the trace contains no receive from any channel. -/
def noRecvEvs : List Ev → Bool
| [] => true
| Ev.recv _ _ :: _ => false
| _ :: r => noRecvEvs r

/-- True when the trace contains no send to the speed or rpm channel. -/
def noNumericSends : List Ev → Bool
| [] => true
| Ev.sent ChanId.speed _ _ :: _ => false
| Ev.sent ChanId.rpm _ _ :: _ => false
| _ :: r => noNumericSends r

/-- True when the trace contains no vTaskDelay at all. -/
def noDelayEvs : List Ev → Bool
| [] => true
| Ev.delay _ :: _ => false
| _ :: r => noDelayEvs r

/-- True when every send to channel c in the trace carries payload v. -/
def sendsOnlyValue (c : ChanId) (v : Msg) : List Ev → Bool
| [] => true
| Ev.sent cc m _ :: r =>
    (if cc = c then decide (m = v) else true) && sendsOnlyValue c v r
| _ :: r => sendsOnlyValue c v r

/-- Scan of a trace tracking whether the dashboard semaphore is held;
true when every read or write of a carStatus field happens while the
semaphore is held. -/
def guardedAccessesGo : List Ev → Bool → Bool
| [], _ => true
| Ev.semTake :: r, _ => guardedAccessesGo r true
| Ev.semGive :: r, _ => guardedAccessesGo r false
| Ev.csWrite _ :: r, held => held && guardedAccessesGo r held
| Ev.csRead _ :: r, held => held && guardedAccessesGo r held
| _ :: r, held => guardedAccessesGo r held

/-- A task whose trace never takes the semaphore starts with it not held. -/
def guardedAccesses (evs : List Ev) : Bool := guardedAccessesGo evs false

/-- After a successful send, a pacing delay of xTicksToWait must occur
before the next channel operation of the task (prints and local reads or
writes may come in between). -/
def delayBeforeNextOp : List Ev → Bool
| [] => true
| Ev.delay t :: _ => decide (t = xTicksToWait)
| Ev.sent _ _ _ :: _ => false
| Ev.recv _ _ :: _ => false
| _ :: r => delayBeforeNextOp r

/-- After a failed send, no delay may occur before the next channel
operation of the task. -/
def noDelayBeforeNextOp : List Ev → Bool
| [] => true
| Ev.delay _ :: _ => false
| Ev.sent _ _ _ :: _ => true
| Ev.recv _ _ :: _ => true
| _ :: r => noDelayBeforeNextOp r

/-- The pacing discipline claimed by the spec: every successful send is
followed by the 1 second pacing delay before the next channel operation,
and no failed send is. -/
def pacedOk : List Ev → Bool
| [] => true
| Ev.sent _ _ true :: r => delayBeforeNextOp r && pacedOk r
| Ev.sent _ _ false :: r => noDelayBeforeNextOp r && pacedOk r
| _ :: r => pacedOk r

/-- The pacing discipline with sends to the listed channels exempted. -/
def pacedOkExcept (ex : List ChanId) : List Ev → Bool
| [] => true
| Ev.sent c _ true :: r => (ex.contains c || delayBeforeNextOp r) && pacedOkExcept ex r
| Ev.sent c _ false :: r => (ex.contains c || noDelayBeforeNextOp r) && pacedOkExcept ex r
| _ :: r => pacedOkExcept ex r

/-- True when the trace contains no semaphore take or give. -/
def noSemEvs : List Ev → Bool
| [] => true
| Ev.semTake :: _ => false
| Ev.semGive :: _ => false
| _ :: r => noSemEvs r

/-- Scan tracking the semaphore: true when the semaphore is held at every
wait on the queue set in the trace. -/
def allWaitsLocked : List Ev → Bool → Bool
| [], _ => true
| Ev.semTake :: r, _ => allWaitsLocked r true
| Ev.semGive :: r, _ => allWaitsLocked r false
| Ev.selectWait _ :: r, held => held && allWaitsLocked r held
| _ :: r, held => allWaitsLocked r held

/-- Scan tracking the semaphore and whether the previous wait on the
queue set timed out: true when at every wait that follows a timed-out
wait the semaphore is not held. -/
def waitsFreeAfterTimeoutGo : List Ev → Bool → Bool → Bool
| [], _, _ => true
| Ev.semTake :: r, _, p => waitsFreeAfterTimeoutGo r true p
| Ev.semGive :: r, _, p => waitsFreeAfterTimeoutGo r false p
| Ev.selectWait res :: r, held, p =>
    (!p || !held) && waitsFreeAfterTimeoutGo r held (decide (res = none))
| _ :: r, held, p => waitsFreeAfterTimeoutGo r held p

def waitsFreeAfterTimeout (evs : List Ev) : Bool :=
  waitsFreeAfterTimeoutGo evs false false

/-- Scenario state for the drain over a single speed sample: speedQueue
holds the sample 90 and the readiness queue records that one send. -/
def c1State : SysState :=
  { chans := { initChannels with speedQueue := { capacity := 1, items := [Msg.num 90] } },
    readySet := [ChanId.speed],
    carStatus := initCarStatus }

/-- Scenario state of section 8 of the spec: one OK status message from
the motor producer plus the numeric samples speed 90 and rpm 2500 are
pending, nothing else. -/
def c5State : SysState :=
  { chans := { initChannels with
      motorQueue := { capacity := 5, items := [Msg.str "M.G is ok, speed xx and rpm is yyyy"] },
      speedQueue := { capacity := 1, items := [Msg.num 90] },
      rpmQueue := { capacity := 1, items := [Msg.num 2500] } },
    readySet := [ChanId.motor, ChanId.speed, ChanId.rpm],
    carStatus := initCarStatus }

/-- Two consecutive iterations of the dashboard outer loop starting from
the post-setup state with every queue empty: the first select times out
immediately, the semaphore is given back and re-taken, and the next
select wait happens with the semaphore held again. -/
def dashTwoItersTrace : List Ev :=
  (dashboardIteration initState initLocals).2.2 ++
    (dashboardIteration (dashboardIteration initState initLocals).1
      (dashboardIteration initState initLocals).2.1).2.2

theorem setChan_carStatus (s : SysState) (c : ChanId) (ch : Channel) :
    (setChan s c ch).carStatus = s.carStatus := by
  cases c <;> rfl

theorem sendTo_carStatus (s : SysState) (c : ChanId) (m : Msg) :
    (sendTo s c m).1.carStatus = s.carStatus := by
  simp only [sendTo]
  split <;> simp [setChan_carStatus]

theorem recvZero_carStatus (s : SysState) (c : ChanId) :
    (recvZero s c).2.carStatus = s.carStatus := by
  unfold recvZero
  simp [setChan_carStatus]

theorem sendBlocking_carStatus (s : SysState) (c : ChanId) (m : Msg) (s1 : SysState)
    (h : sendBlocking s c m = some s1) : s1.carStatus = s.carStatus := by
  simp only [sendBlocking] at h
  split at h
  · cases h; exact sendTo_carStatus s c m
  · cases h

theorem sendMessageToSubsystem_carStatus (a : String) (q : ChanId) (b : String)
    (s : SysState) : (sendMessageToSubsystem a q b s).1.carStatus = s.carStatus := by
  simp only [sendMessageToSubsystem]
  split
  · split <;> simp [recvZero_carStatus, sendTo_carStatus]
  · simp [sendTo_carStatus]

theorem dashHandle_carStatus (c : ChanId) (s : SysState) (msg : Option Msg)
    (loc : DashLocals) : (dashHandle c s msg loc).1.carStatus = s.carStatus :=
  recvZero_carStatus s c

theorem drainGo_carStatus (l : List ChanId) :
    ∀ (s : SysState) (msg : Option Msg) (loc : DashLocals),
      (drainGo l s msg loc).1.carStatus = s.carStatus := by
  induction l with
  | nil => intro s msg loc; rfl
  | cons c rest ih =>
      intro s msg loc
      simpa [drainGo, ih] using dashHandle_carStatus c s msg loc

/-- C4: a zero-timeout send on a channel whose length equals its capacity
returns false and leaves the channel (capacity, items and their order)
unchanged; on a channel below capacity it enqueues the item at the tail
and returns true. -/
theorem C4_trySend_contract (ch : Channel) (m : Msg) :
    (ch.items.length = ch.capacity → trySend ch m = (ch, false))
    ∧ (ch.items.length < ch.capacity →
        (trySend ch m).1.items = ch.items ++ [m]
        ∧ (trySend ch m).1.capacity = ch.capacity
        ∧ (trySend ch m).2 = true) := by
  constructor
  · intro h
    unfold trySend
    rw [h]
    simp
  · intro h
    unfold trySend
    rw [if_pos h]
    exact ⟨rfl, rfl, rfl⟩

/-- Witness for C4: a full capacity-1 channel rejects the send unchanged,
and an empty capacity-1 channel accepts it at the tail. -/
theorem C4_trySend_contract_witness :
    trySend { capacity := 1, items := [Msg.num 7] } (Msg.num 8)
      = ({ capacity := 1, items := [Msg.num 7] }, false)
    ∧ ((trySend { capacity := 1, items := [] } (Msg.num 8)).1.items = [] ++ [Msg.num 8]
        ∧ (trySend { capacity := 1, items := [] } (Msg.num 8)).1.capacity = 1
        ∧ (trySend { capacity := 1, items := [] } (Msg.num 8)).2 = true) :=
  ⟨(C4_trySend_contract { capacity := 1, items := [Msg.num 7] } (Msg.num 8)).1 (by decide),
   (C4_trySend_contract { capacity := 1, items := [] } (Msg.num 8)).2 (by decide)⟩

/-- C6: with a healthy fuel check, a reading of 5.0 (below the 10.0
threshold) makes the fuel producer compose and send the low fuel status
message, and that message differs from the good fuel message composed at
a reading of 50.0. -/
theorem C6_low_fuel_vs_good_fuel (prev : Option String) :
    (fuelCompose true 5 prev).1 = "0x3: low fuel"
    ∧ (fuelCompose true 50 prev).1 = "0x4 good fuel"
    ∧ (fuelCompose true 5 prev).1 ≠ (fuelCompose true 50 prev).1
    ∧ Ev.sent ChanId.fuel (Msg.str "0x3: low fuel") true
        ∈ (fuelIteration true 5 prev initState).2.2.1 := by
  have h5 : fuelCompose true 5 prev = ("0x3: low fuel", some "U$U$") := by
    norm_num [fuelCompose]
  have h50 : fuelCompose true 50 prev = ("0x4 good fuel", some "h$h$") := by
    norm_num [fuelCompose]
  refine ⟨by rw [h5], by rw [h50], by rw [h5, h50]; decide, ?_⟩
  simp [fuelIteration, h5, sendBlocking, sendTo, trySend, getChan, setChan,
    initState, initChannels]

/-- C10: whenever the fuel branch conditions select the else branch
(check false, or level exactly 10.0), only statusMsg is assigned and the
statusMsg2 local keeps its previous value, yet the iteration still sends
statusMsg2 to the fuel channel: the uninitialized value on a first
iteration (prev = none), a stale value from an earlier iteration
otherwise. -/
theorem C10_fuel_else_sends_stale (check : Bool) (level : Rat) (prev : Option String)
    (h : check = false ∨ level = 10) :
    fuelCompose check level prev = ("Fuel.is.xx.yy%", prev)
    ∧ (fuelIteration check level prev initState).2.1 = prev
    ∧ Ev.sent ChanId.fuel (optStrToMsg prev) true
        ∈ (fuelIteration check level prev initState).2.2.1 := by
  have hc : fuelCompose check level prev = ("Fuel.is.xx.yy%", prev) := by
    rcases h with h | h
    · subst h; simp [fuelCompose]
    · subst h; simp [fuelCompose]
  refine ⟨hc, ?_, ?_⟩ <;>
    simp [fuelIteration, hc, sendBlocking, sendTo, trySend, getChan, setChan,
      initState, initChannels]

/-- Witness for C10: first iteration, failed check, empty fuel queue: the
iteration sends the uninitialized statusMsg2 (modelled undef). -/
theorem C10_fuel_else_sends_stale_witness :
    fuelCompose false 7 none = ("Fuel.is.xx.yy%", none)
    ∧ (fuelIteration false 7 none initState).2.1 = none
    ∧ Ev.sent ChanId.fuel (optStrToMsg none) true
        ∈ (fuelIteration false 7 none initState).2.2.1 :=
  C10_fuel_else_sends_stale false 7 none (Or.inl rfl)

/-- C3 (code bug): in its very first iteration with the stub self-check
(true), motorControlTask writes carStatus.speed and carStatus.rpm and
reads them back without ever taking dashboardSemaphore: its trace has
unguarded carStatus accesses and contains no semaphore take at all,
contradicting the invariant that every CarStatus access holds the lock. -/
theorem C3_motor_accesses_unguarded :
    guardedAccesses (motorIteration true initState).2.1 = false
    ∧ Ev.csWrite CsField.speed ∈ (motorIteration true initState).2.1
    ∧ Ev.csWrite CsField.rpm ∈ (motorIteration true initState).2.1
    ∧ Ev.semTake ∉ (motorIteration true initState).2.1 := by
  decide

/-- C1 counterexample: a drain pass over a pending speed sample of 90
receives it from the speed channel while the lock is held, but the speed
field of the shared CarStatus record stays 0: the aggregator does not
update it. -/
theorem C1_counterexample :
    Ev.recv ChanId.speed (some (Msg.num 90)) ∈ (dashboardIteration c1State initLocals).2.2
    ∧ (dashboardIteration c1State initLocals).1.carStatus.speed = 0
    ∧ (0 : Nat) ≠ 90 := by
  decide

/-- C2 counterexample: the motor producer, not the aggregator, receives
from the ventilation channel (and the fuel channel) inside
sendMessageToSubsystem, taking back the check message it just sent. -/
theorem C2_counterexample :
    Ev.recv ChanId.ventilation (some (Msg.str "Checking vent."))
      ∈ (motorIteration true initState).2.1
    ∧ Ev.recv ChanId.fuel (some (Msg.str "Checking Fuel"))
      ∈ (motorIteration true initState).2.1 := by
  decide

/-- C5 counterexample: with one OK motor message plus the samples 90 and
2500 pending, the next drain pass leaves the shared CarStatus record at
its initial zeros: it does not set speed 90 and rpm 2500. -/
theorem C5_counterexample :
    (dashboardIteration c5State initLocals).1.carStatus = initCarStatus
    ∧ initCarStatus.speed = 0
    ∧ initCarStatus.rpm = 0
    ∧ (0 : Nat) ≠ 90 := by
  decide

/-- C7 counterexample: in a failing-check motor iteration whose error
message send succeeds, the task still sends numeric telemetry: the stale
carStatus values (0 after setup) go out on the speed and rpm channels. -/
theorem C7_counterexample :
    Ev.sent ChanId.speed (Msg.num 0) true ∈ (motorIteration false initState).2.1
    ∧ Ev.sent ChanId.rpm (Msg.num 0) true ∈ (motorIteration false initState).2.1 := by
  decide

/-- C8 counterexample: across two consecutive dashboard iterations from
the empty post-setup state, the select wait that follows a timed-out wait
happens with the semaphore held (it was re-taken at the top of the next
outer iteration), so the lock is held while the aggregator idles in a
wait. -/
theorem C8_counterexample : waitsFreeAfterTimeout dashTwoItersTrace = false := by
  decide

/-- C9 counterexample: in the motor iteration the successful zero-timeout
send of the check message to the ventilation queue is followed
immediately by a blocking receive, with no pacing delay in between, so
not every successful send is followed by the 1 second delay. -/
theorem C9_counterexample : pacedOk (motorIteration true initState).2.1 = false := by
  decide

/-- C5 (amended): the shared record reaches speed 90 and rpm 2500 because
the motor producer itself writes those fields when its self-check (always
true with the stub) passes; the drain pass over the pending OK message
and the two samples leaves the shared CarStatus record unchanged, stores
the samples in the dashboard locals speedValue = 90 and rpmValue = 2500,
and renders exactly one informational (string) message. -/
theorem C5_drain_scenario :
    (motorIteration performSelfCheck initState).1.carStatus.speed = 90
    ∧ (motorIteration performSelfCheck initState).1.carStatus.rpm = 2500
    ∧ (dashboardIteration c5State initLocals).1.carStatus = c5State.carStatus
    ∧ (dashboardIteration c5State initLocals).2.1.speedValue = some (CastVal.val 90)
    ∧ (dashboardIteration c5State initLocals).2.1.rpmValue = some (CastVal.val 2500)
    ∧ informationalRenders (dashboardIteration c5State initLocals).2.2 = 1 := by
  decide

/-- C1 (amended): for every item handled in a drain pass, the aggregator
never changes any field of the shared CarStatus record, whatever the
origin channel; an item whose origin is the speed (resp. rpm) channel
updates the dashboard-local speedValue (resp. rpmValue) with the cast of
the current msg value instead; and every successfully received item, from
any channel, is forwarded to the rendering collaborator. -/
theorem C1_drain_item_handling (c : ChanId) (s : SysState) (msg : Option Msg)
    (loc : DashLocals) :
    (dashHandle c s msg loc).1.carStatus = s.carStatus
    ∧ (dashHandle c s msg loc).2.2.1.speedValue =
        (if c = ChanId.speed then some (msgCast (dashHandle c s msg loc).2.1)
         else loc.speedValue)
    ∧ (dashHandle c s msg loc).2.2.1.rpmValue =
        (if c = ChanId.rpm then some (msgCast (dashHandle c s msg loc).2.1)
         else loc.rpmValue)
    ∧ renderedMsgs (dashHandle c s msg loc).2.2.2 =
        receivedMsgs (dashHandle c s msg loc).2.2.2 := by
  rcases hr : (recvZero s c).1 with _ | m <;>
    cases c <;>
      simp [dashHandle, hr, recvZero_carStatus, renderedMsgs, receivedMsgs]

/-- C2 (amended): the ventilation and fuel producers never receive from
any channel, and neither the dashboard drain nor the ventilation or fuel
producers ever write the shared CarStatus record (in particular the
dashboard does not write speed or rpm from channel traffic); the motor
producer, however, does receive from the ventilation and fuel channels
inside sendMessageToSubsystem. -/
theorem C2_sole_receiver_refined (check : Bool) (level : Rat) (prev : Option String)
    (s t u : SysState) (loc : DashLocals) :
    noRecvEvs (ventIteration check t).2.1 = true
    ∧ noRecvEvs (fuelIteration check level prev u).2.2.1 = true
    ∧ (ventIteration check t).1.carStatus = t.carStatus
    ∧ (fuelIteration check level prev u).1.carStatus = u.carStatus
    ∧ (dashboardIteration s loc).1.carStatus = s.carStatus
    ∧ Ev.recv ChanId.ventilation (some (Msg.str "Checking vent."))
        ∈ (motorIteration true initState).2.1 := by
  refine ⟨?_, ?_, ?_, ?_, ?_, by decide⟩
  · rcases h1 : sendBlocking t ChanId.ventilation (Msg.str (ventMsgs check).1) with _ | s1
    · simp [ventIteration, h1, noRecvEvs]
    · rcases h2 : sendBlocking s1 ChanId.ventilation (Msg.str (ventMsgs check).2) with _ | s2
      · simp [ventIteration, h1, h2, noRecvEvs]
      · simp [ventIteration, h1, h2, noRecvEvs]
  · rcases h1 : sendBlocking u ChanId.fuel
        (Msg.str (fuelCompose check level prev).1) with _ | s1
    · simp [fuelIteration, h1, noRecvEvs]
    · rcases h2 : sendBlocking s1 ChanId.fuel
          (optStrToMsg (fuelCompose check level prev).2) with _ | s2
      · simp [fuelIteration, h1, h2, noRecvEvs]
      · simp [fuelIteration, h1, h2, noRecvEvs]
  · rcases h1 : sendBlocking t ChanId.ventilation (Msg.str (ventMsgs check).1) with _ | s1
    · simp [ventIteration, h1]
    · have e1 := sendBlocking_carStatus t _ _ s1 h1
      rcases h2 : sendBlocking s1 ChanId.ventilation (Msg.str (ventMsgs check).2) with _ | s2
      · simp [ventIteration, h1, h2, e1]
      · have e2 := sendBlocking_carStatus s1 _ _ s2 h2
        simp [ventIteration, h1, h2, e1, e2]
  · rcases h1 : sendBlocking u ChanId.fuel
        (Msg.str (fuelCompose check level prev).1) with _ | s1
    · simp [fuelIteration, h1]
    · have e1 := sendBlocking_carStatus u _ _ s1 h1
      rcases h2 : sendBlocking s1 ChanId.fuel
          (optStrToMsg (fuelCompose check level prev).2) with _ | s2
      · simp [fuelIteration, h1, h2, e1]
      · have e2 := sendBlocking_carStatus s1 _ _ s2 h2
        simp [fuelIteration, h1, h2, e1, e2]
  · simpa [dashboardIteration] using
      drainGo_carStatus s.readySet { s with readySet := [] } none loc

theorem noSemEvs_append (a b : List Ev) :
    noSemEvs (a ++ b) = (noSemEvs a && noSemEvs b) := by
  induction a with
  | nil => simp [noSemEvs]
  | cons e r ih => cases e <;> simp [noSemEvs, ih]

theorem dashHandle_noSem (c : ChanId) (s : SysState) (msg : Option Msg)
    (loc : DashLocals) : noSemEvs (dashHandle c s msg loc).2.2.2 = true := by
  rcases hr : (recvZero s c).1 with _ | m <;>
    cases c <;> simp [dashHandle, hr, noSemEvs, noSemEvs_append]

theorem drainGo_noSem (l : List ChanId) :
    ∀ (s : SysState) (msg : Option Msg) (loc : DashLocals),
      noSemEvs (drainGo l s msg loc).2.2.2 = true := by
  induction l with
  | nil => intro s msg loc; rfl
  | cons c rest ih =>
      intro s msg loc
      simp [drainGo, noSemEvs, noSemEvs_append, dashHandle_noSem, ih]

theorem allWaitsLocked_of_noSem (a b : List Ev) :
    noSemEvs a = true → allWaitsLocked (a ++ b) true = allWaitsLocked b true := by
  induction a with
  | nil => intro _; simp
  | cons e r ih =>
      intro h
      cases e <;> simp [noSemEvs] at h <;> simp [allWaitsLocked, ih h]

/-- C8 (amended): the dashboard takes the semaphore at the top of each
outer iteration and gives it back only after the drain loop breaks on a
timed-out select, so after a timeout the lock is indeed released before
the iteration ends; but every wait on the queue set, including the first
wait of the following iteration, happens while the semaphore is held:
the aggregator does idle inside xQueueSelectFromSet with the lock held. -/
theorem C8_lock_across_waits (s : SysState) (loc : DashLocals) :
    allWaitsLocked (dashboardIteration s loc).2.2 false = true
    ∧ ((dashboardIteration s loc).2.2).head? = some Ev.semTake
    ∧ ((dashboardIteration s loc).2.2).getLast? = some Ev.semGive := by
  have hd := drainGo_noSem s.readySet { s with readySet := [] } none loc
  refine ⟨?_, rfl, ?_⟩
  · show allWaitsLocked
      ((drainGo s.readySet { s with readySet := [] } none loc).2.2.2
        ++ [Ev.semGive]) true = true
    rw [allWaitsLocked_of_noSem _ _ hd]
    rfl
  · exact List.getLast?_concat
      (Ev.semTake :: (drainGo s.readySet { s with readySet := [] } none loc).2.2.2)

theorem motorTail_carStatus (m2 : String) (s3 : SysState) :
    (motorTail m2 s3).1.carStatus = s3.carStatus := by
  simp [motorTail, sendTo_carStatus]

/-- Stale pre-iteration state used to exhibit what a failing-check motor
iteration sends: carStatus holds 37 and 4100, values the failing
iteration could not have synthesized. -/
def staleState : SysState :=
  { chans := initChannels, readySet := [],
    carStatus := { speed := 37, rpm := 4100, ventilationStatus := true, fuelLevel := 2 } }

set_option maxHeartbeats 1000000 in
/-- C7 (amended): on a failing self-check the motor producer composes the
distinct error message x01 and leaves the shared CarStatus record
untouched, so it synthesizes no fresh telemetry; but when its error
message send passes it still sends numeric telemetry, namely the stale
pre-iteration carStatus.speed and carStatus.rpm values, to the speed and
rpm channels (every numeric send of the failing iteration carries exactly
those stale values); the ventilation and fuel producers never send to the
numeric channels at all. -/
theorem C7_fail_iteration_telemetry (check : Bool) (level : Rat)
    (prev : Option String) (s t u : SysState) :
    motorMsgs false = ("x01: Error: M.||Gb.", "Motor is not OK")
    ∧ (motorMsgs false).1 ≠ (motorMsgs true).1
    ∧ (motorIteration false s).1.carStatus = s.carStatus
    ∧ sendsOnlyValue ChanId.speed (Msg.num staleState.carStatus.speed)
        (motorIteration false staleState).2.1 = true
    ∧ sendsOnlyValue ChanId.rpm (Msg.num staleState.carStatus.rpm)
        (motorIteration false staleState).2.1 = true
    ∧ Ev.sent ChanId.speed (Msg.num staleState.carStatus.speed) true
        ∈ (motorIteration false staleState).2.1
    ∧ noNumericSends (ventIteration check t).2.1 = true
    ∧ noNumericSends (fuelIteration check level prev u).2.2.1 = true := by
  refine ⟨rfl, by decide, ?_, by decide, by decide, by decide, ?_, ?_⟩
  · simp only [motorIteration, motorMsgs]
    repeat' split
    all_goals try simp_all [sendTo_carStatus, sendMessageToSubsystem_carStatus,
      motorTail_carStatus]
  · rcases h1 : sendBlocking t ChanId.ventilation (Msg.str (ventMsgs check).1) with _ | s1
    · simp [ventIteration, h1, noNumericSends]
    · rcases h2 : sendBlocking s1 ChanId.ventilation (Msg.str (ventMsgs check).2) with _ | s2
      · simp [ventIteration, h1, h2, noNumericSends]
      · simp [ventIteration, h1, h2, noNumericSends]
  · rcases h1 : sendBlocking u ChanId.fuel
        (Msg.str (fuelCompose check level prev).1) with _ | s1
    · simp [fuelIteration, h1, noNumericSends]
    · rcases h2 : sendBlocking s1 ChanId.fuel
          (optStrToMsg (fuelCompose check level prev).2) with _ | s2
      · simp [fuelIteration, h1, h2, noNumericSends]
      · simp [fuelIteration, h1, h2, noNumericSends]

theorem sendMessageToSubsystem_trace (a : String) (q : ChanId) (b : String)
    (s : SysState) :
    (sendMessageToSubsystem a q b s).2.1 = [Ev.sent q (Msg.str b) false]
    ∨ (sendMessageToSubsystem a q b s).2.1 = [Ev.sent q (Msg.str b) true, Ev.recv q none]
    ∨ ∃ m, (sendMessageToSubsystem a q b s).2.1
        = [Ev.sent q (Msg.str b) true, Ev.recv q (some m), Ev.printMsg m] := by
  simp only [sendMessageToSubsystem]
  split
  · split
    · exact Or.inr (Or.inr ⟨_, rfl⟩)
    · exact Or.inr (Or.inl rfl)
  · exact Or.inl rfl

theorem pacedOkExcept_subsys_append (ex : List ChanId) (a : String) (q : ChanId)
    (b : String) (s : SysState) (rest : List Ev) (hex : q ∈ ex) :
    pacedOkExcept ex ((sendMessageToSubsystem a q b s).2.1 ++ rest)
      = pacedOkExcept ex rest := by
  rcases sendMessageToSubsystem_trace a q b s with h | h | ⟨m, h⟩ <;>
    rw [h] <;> simp [pacedOkExcept, hex]

theorem pacedOkExcept_subsys (ex : List ChanId) (a : String) (q : ChanId)
    (b : String) (s : SysState) (hex : q ∈ ex) :
    pacedOkExcept ex (sendMessageToSubsystem a q b s).2.1 = true := by
  rcases sendMessageToSubsystem_trace a q b s with h | h | ⟨m, h⟩ <;>
    rw [h] <;> simp [pacedOkExcept, hex]

set_option maxHeartbeats 2000000 in
theorem motorTail_paced (m2 : String) (s3 : SysState) :
    pacedOkExcept [ChanId.ventilation, ChanId.fuel] (motorTail m2 s3).2 = true := by
  simp only [motorTail]
  repeat' split
  all_goals try simp_all [pacedOkExcept, delayBeforeNextOp, noDelayBeforeNextOp]

set_option maxHeartbeats 4000000 in
theorem motorIteration_paced (check : Bool) (s : SysState) :
    pacedOkExcept [ChanId.ventilation, ChanId.fuel] (motorIteration check s).2.1 = true := by
  have hVa := fun (a b : String) (w : SysState) (rest : List Ev) =>
    pacedOkExcept_subsys_append [ChanId.ventilation, ChanId.fuel] a ChanId.ventilation
      b w rest (by decide)
  have hFa := fun (a b : String) (w : SysState) (rest : List Ev) =>
    pacedOkExcept_subsys_append [ChanId.ventilation, ChanId.fuel] a ChanId.fuel
      b w rest (by decide)
  have hV1 := fun (a b : String) (w : SysState) =>
    pacedOkExcept_subsys [ChanId.ventilation, ChanId.fuel] a ChanId.ventilation
      b w (by decide)
  have hF1 := fun (a b : String) (w : SysState) =>
    pacedOkExcept_subsys [ChanId.ventilation, ChanId.fuel] a ChanId.fuel
      b w (by decide)
  cases check <;>
    (simp only [motorIteration, motorMsgs]
     repeat' split
     all_goals try simp_all [pacedOkExcept, delayBeforeNextOp, noDelayBeforeNextOp,
       motorTail_paced])

/-- C9 (amended): in every producer iteration, from every state, every
successful send issued directly in the producer loop body is followed by
the pacing delay xTicksToWait (pdMS_TO_TICKS of 1000) before the next
channel operation of the task, and no failed send is followed by a
delay; the exception is the pair of check message sends the motor
producer issues through sendMessageToSubsystem, whose traces never
contain a delay: on success they are followed immediately by a blocking
receive. -/
theorem C9_pacing_discipline (check : Bool) (level : Rat) (prev : Option String)
    (s t u w : SysState) (a b : String) (q : ChanId) :
    xTicksToWait = 1000
    ∧ pacedOk (ventIteration check t).2.1 = true
    ∧ pacedOk (fuelIteration check level prev u).2.2.1 = true
    ∧ pacedOkExcept [ChanId.ventilation, ChanId.fuel]
        (motorIteration check s).2.1 = true
    ∧ noDelayEvs (sendMessageToSubsystem a q b w).2.1 = true := by
  refine ⟨rfl, ?_, ?_, motorIteration_paced check s, ?_⟩
  · rcases h1 : sendBlocking t ChanId.ventilation (Msg.str (ventMsgs check).1) with _ | s1
    · simp [ventIteration, h1, pacedOk]
    · rcases h2 : sendBlocking s1 ChanId.ventilation (Msg.str (ventMsgs check).2) with _ | s2
      · simp [ventIteration, h1, h2, pacedOk, delayBeforeNextOp]
      · simp [ventIteration, h1, h2, pacedOk, delayBeforeNextOp]
  · rcases h1 : sendBlocking u ChanId.fuel
        (Msg.str (fuelCompose check level prev).1) with _ | s1
    · simp [fuelIteration, h1, pacedOk]
    · rcases h2 : sendBlocking s1 ChanId.fuel
          (optStrToMsg (fuelCompose check level prev).2) with _ | s2
      · simp [fuelIteration, h1, h2, pacedOk, delayBeforeNextOp]
      · simp [fuelIteration, h1, h2, pacedOk, delayBeforeNextOp]
  · simp only [sendMessageToSubsystem]
    split
    · split <;> simp [noDelayEvs]
    · simp [noDelayEvs]

end CarCtl
